import Mathlib

/-!
Verification of the Solar Tap CLI session controller (`code/interface.py`).

The Python program is a single-threaded loop over global mutable state
(`FIRST_CLI_RUN`, `CLI_ACTIVE`, `EXPERIMENT_ACTIVE`, `EXPERIMENT_NUMBER`,
`TEMP_SAMPLE`, `ROT_SAMPLE`) plus the on-disk experiment logs.  We embed it
shallowly: the globals become a `State` record, the file system becomes an
association list from the experiment-directory key to the list of written
lines (the trailing newline of each `f.write` is the line separator and is
not stored), observable output (`print`, `device.write`, `os.system`)
becomes a list of `Event`s, and control effects (`sys.exit`, uncaught
Python exceptions) become an `Outcome` sum.  File-system faults (`mkdir`
or `open`/`write` raising `OSError`) are modelled by a per-iteration
oracle bit `ioFault`: when it is set, the first file operation attempted
in the recording block raises.
-/

/-- Observable side effects of the program: `print`-ed lines,
`device.write` payloads (exact bytes, no newline added), and
`os.system` invocations. -/
inductive Event where
  | printLn (s : String)
  | deviceWrite (s : String)
  | systemCall (s : String)
deriving DecidableEq

/-- File-system component of the state: directories created so far
(keyed by `str(EXPERIMENT_NUMBER)`, the per-experiment directory), and the
lines of each experiment's `temp.txt` and `rot.txt`, keyed the same way. -/
structure FS where
  dirs : List String
  tempFiles : List (String × List String)
  rotFiles : List (String × List String)
deriving DecidableEq

/-- The empty file system at process start. -/
def FS.init : FS := ⟨[], [], []⟩

/-- The global mutable state of `interface.py`. -/
structure State where
  firstCliRun : Bool
  cliActive : Bool
  experimentActive : Bool
  experimentNumber : Option Int
  tempSample : Nat
  rotSample : Nat
  fs : FS
deriving DecidableEq

/-- Initial values of the globals (`FIRST_CLI_RUN = True`,
`CLI_ACTIVE = False`, `EXPERIMENT_ACTIVE = False`,
`EXPERIMENT_NUMBER = None`, `TEMP_SAMPLE = 0`, `ROT_SAMPLE = 0`). -/
def initState : State :=
  { firstCliRun := true
    cliActive := false
    experimentActive := false
    experimentNumber := none
    tempSample := 0
    rotSample := 0
    fs := FS.init }

/-- Result of running a piece of the program: normal return with the new
state and emitted events, process exit via `sys.exit(code)`, or an
uncaught Python exception (named by its class) which aborts the process. -/
inductive Outcome where
  | ok (s : State) (evs : List Event)
  | exited (code : Nat) (evs : List Event)
  | crashed (exn : String) (evs : List Event)
deriving DecidableEq

/-- Prepend already-emitted events to an outcome. -/
def Outcome.prepend (pre : List Event) : Outcome → Outcome
  | .ok s evs => .ok s (pre ++ evs)
  | .exited c evs => .exited c (pre ++ evs)
  | .crashed e evs => .crashed e (pre ++ evs)

/-- Sequencing: run `f` on the state if the first part returned normally;
exits and uncaught exceptions propagate. -/
def Outcome.andThen (o : Outcome) (f : State → Outcome) : Outcome :=
  match o with
  | .ok s evs => (f s).prepend evs
  | .exited c evs => .exited c evs
  | .crashed e evs => .crashed e evs

/-- Python `str()` on `EXPERIMENT_NUMBER` (an `int` or `None`), as used to
build the per-experiment directory path. -/
def pyStr : Option Int → String
  | none => "None"
  | some n => toString n

/-- Python treats strings character-wise; Lean's built-in `String.trim`,
`String.startsWith` and `String.splitOn` are defined by well-founded
recursion on byte positions, so the Python string primitives are embedded
here as structural functions on the character list instead. -/
def listStartsWith : List Char → List Char → Bool
  | _, [] => true
  | [], _ :: _ => false
  | c :: cs, p :: ps => c == p && listStartsWith cs ps

/-- Python `s.startswith(pre)`. -/
def pyStartsWith (s pre : String) : Bool :=
  listStartsWith s.toList pre.toList

/-- Python `s.strip()`: remove leading and trailing whitespace. -/
def pyStrip (s : String) : String :=
  String.mk (((s.toList.dropWhile Char.isWhitespace).reverse.dropWhile
    Char.isWhitespace).reverse)

/-- Python `s[n:]`: drop the first `n` characters. -/
def pySliceFrom (s : String) (n : Nat) : String :=
  String.mk (s.toList.drop n)

/-- Split a character list on a separator character, keeping empty
groups, as Python `str.split(sep)` does (`"".split(" ") = [""]`,
`"a  b".split(" ") = ["a", "", "b"]`). -/
def splitChar : List Char → Char → List (List Char)
  | [], _ => [[]]
  | c :: cs, sep =>
    let r := splitChar cs sep
    if c == sep then [] :: r
    else
      match r with
      | [] => [[c]]
      | g :: gs => (c :: g) :: gs

/-- Python `s.split(sep)` for a one-character separator. -/
def pySplit (s : String) (sep : Char) : List String :=
  (splitChar s.toList sep).map String.mk

/-- Value of a digit list read in base 10 (digits already validated). -/
def natOfDigits (cs : List Char) : Nat :=
  cs.foldl (fun n c => 10 * n + (c.toNat - 48)) 0

/-- A non-empty all-digit character list parsed to a natural number;
`none` otherwise. -/
def digitsToNat? (cs : List Char) : Option Nat :=
  if cs ≠ [] ∧ cs.all Char.isDigit then some (natOfDigits cs) else none

/-- Python `int(s)` on decimal literals: optional surrounding whitespace,
optional sign, then a non-empty digit run.  Raises `ValueError` (here:
`none`) otherwise. -/
def pyInt (str : String) : Option Int :=
  match (pyStrip str).toList with
  | '-' :: rest => (digitsToNat? rest).map (fun n => -(n : Int))
  | '+' :: rest => (digitsToNat? rest).map (fun n => (n : Int))
  | cs => (digitsToNat? cs).map (fun n => (n : Int))

/-- The exact value denoted by a plain decimal float literal:
`(-1)^neg * (intPart + fracVal / 10^fracLen)`.  This represents the
result of Python `float(...)` on the literals this program handles
(IEEE-754 rounding is value-preserving on every literal short enough to
round-trip, and the program only ever re-prints the value). -/
structure PyFloat where
  neg : Bool
  intPart : Nat
  fracVal : Nat
  fracLen : Nat
deriving DecidableEq

/-- Python `float(s)` on plain decimal literals (optional sign, digits,
optional point): exponent forms are not used by this program.
Anything else raises `ValueError` (here: `none`). -/
def pyFloat (str : String) : Option PyFloat :=
  let t := (pyStrip str).toList
  let neg : Bool := match t with
    | '-' :: _ => true
    | _ => false
  let body : List Char := match t with
    | '-' :: rest => rest
    | '+' :: rest => rest
    | cs => cs
  match body.span (fun c => !(c == '.')) with
  | (ip, []) => (digitsToNat? ip).map (fun n => ⟨neg, n, 0, 0⟩)
  | (ip, _ :: fp) =>
    if (ip ≠ [] ∨ fp ≠ []) ∧ ip.all Char.isDigit ∧ fp.all Char.isDigit then
      some ⟨neg, natOfDigits ip, natOfDigits fp, fp.length⟩
    else none

/-- Drop trailing `'0'` characters. -/
def stripTrailingZeros (cs : List Char) : List Char :=
  (cs.reverse.dropWhile (fun c => c == '0')).reverse

/-- Left-pad a digit string with zeros to width `k`. -/
def padZeros (s : String) (k : Nat) : String :=
  String.mk (List.replicate (k - s.length) '0') ++ s

/-- Python `str()`/`repr()` of one of this program's floats: sign,
canonical integer part, a point, and the fraction digits with trailing
zeros removed but at least one digit kept (`str(float("-45.0")) =
"-45.0"`, `str(float("21.50")) = "21.5"`, `str(float("21")) = "21.0"`). -/
def formatFloat (f : PyFloat) : String :=
  let sgn := if f.neg then "-" else ""
  let ds := stripTrailingZeros (padZeros (toString f.fracVal) f.fracLen).toList
  let frac := if ds = [] then "0" else String.mk ds
  sgn ++ toString f.intPart ++ "." ++ frac

/-- Lines currently in the file at `key` (a missing file reads as empty:
the program only ever appends). -/
def fileLines (files : List (String × List String)) (key : String) : List String :=
  match files.find? (fun p => p.1 == key) with
  | some p => p.2
  | none => []

/-- Append one line to the file at `key`, creating it if absent. -/
def appendFile : List (String × List String) → String → String → List (String × List String)
  | [], key, line => [(key, [line])]
  | (k, ls) :: rest, key, line =>
    if k == key then (k, ls ++ [line]) :: rest
    else (k, ls) :: appendFile rest key line

/-- `Path.mkdir(parents=True, exist_ok=True)`: idempotent creation of the
experiment directory. -/
def mkdirParents (dirs : List String) (key : String) : List String :=
  if key ∈ dirs then dirs else dirs ++ [key]

/-- The static help text returned by `cli_help()` (printed once, governed
by `FIRST_CLI_RUN`). -/
def cli_help : String :=
  "\nWelcome to the Solar Tap CLI (\"Command Line Interface\")!\n" ++
  "The following is a reference to available commands (type without ``, followed by \"ENTER\"):\n" ++
  "\n\n`q`, `quit`: Quit the program.\n" ++
  "\nCTRL+C: From monitoring mode, enable the CLI. From the CLI, quit the program.\n" ++
  "\t-> CTRL+C from monitoring mode will always disable any active experiment.\n" ++
  "\n`monitor`: Disable the CLI mode, and return to monitoring mode.\n" ++
  "\t-> Messages received while in the CLI were buffered, and are replayed.\n" ++
  "\n\n`enable experiment <number>`: Enable monitoring of an experiment, which will write data to dedicated files.\n" ++
  "\t-> Experiment recordings can be found at './exp/<today>/<number>/' (relative to this script) as 'temp.txt' and 'rot.txt'\n" ++
  "\t-> Recording format is '<sample_count>|<sample_datetime_iso8601>|<sample_value>\".\n" ++
  "\t-> One line per sample\n" ++
  "\n\n`motor inc <steps>`: Increment the step motor by a number of steps (steps are specific to motor model).\n" ++
  "\t-> Use negative steps to rotate the other way.\n" ++
  "\n`motor rot <degrees>`: Increment the step motor by a number of degrees (degrees to steps are hard-coded on the microcontroller).\n" ++
  "\t-> Use negative degrees to rotate the other way.\n" ++
  "\n\n`shader open`: Open the solar tap shaders, by rotating the motor a hard-coded number of degrees.\n" ++
  "\t-> When the shaders are already open, nothing happens.\n" ++
  "\t-> Whenever powering on the solar tap, it is presumed that the shaders are closed.\n" ++
  "\n`shader close`: Close the solar tap shaders, by rotating the motor a hard-coded number of degrees.\n" ++
  "\t-> When the shaders are already closed, nothing happens.\n" ++
  "\t-> Whenever powering on the solar tap, it is presumed that the shaders are closed.\n" ++
  "\n\n`compile`: Flash new firmware for the Solar Tap, by running 'make'.\n" ++
  "\t-> The command 'make' must work without this script.\n" ++
  "\t-> You must run this script from the directory that you run 'make' in.\n" ++
  "\n`flash`: Flash new firmware to the Arduino, by running 'make upload'.\n" ++
  "\t-> See `compile`.\n"

/-- The `enable_cli` procedure: prints a notice and sets `CLI_ACTIVE`. -/
def enable_cli (s : State) : State × List Event :=
  ({ s with cliActive := true }, [Event.printLn "[Enable] CLI..."])

/-- The `disable_cli` procedure: prints a notice and clears `CLI_ACTIVE`. -/
def disable_cli (s : State) : State × List Event :=
  ({ s with cliActive := false }, [Event.printLn "[Disable] CLI..."])

/-- The `enable_experiment` procedure: prints a notice, sets
`EXPERIMENT_ACTIVE` and `EXPERIMENT_NUMBER`, zeroes both sample
counters, then calls `disable_cli()`. -/
def enable_experiment (experiment_number : Int) (s : State) : State × List Event :=
  let s1 := { s with
    experimentActive := true
    experimentNumber := some experiment_number
    tempSample := 0
    rotSample := 0 }
  let r := disable_cli s1
  (r.1, Event.printLn ("[Enable] Experiment " ++ toString experiment_number ++ "...") :: r.2)

/-- The `disable_experiment` procedure: prints a notice (with the number
still set), then clears `EXPERIMENT_ACTIVE` and `EXPERIMENT_NUMBER`. -/
def disable_experiment (s : State) : State × List Event :=
  ({ s with experimentActive := false, experimentNumber := none },
   [Event.printLn ("[Disable] Experiment " ++ pyStr s.experimentNumber ++ "...")])

/-- The `on_sigint` handler: prints a newline; if an experiment is
active, disables it; then, if the CLI is active, runs `quit_program()`
(prints `[Exiting]` and `sys.exit(0)`), else enables the CLI. -/
def on_sigint (s : State) : Outcome :=
  let r1 : State × List Event :=
    if s.experimentActive then disable_experiment s else (s, [])
  if r1.1.cliActive then
    .exited 0 (Event.printLn "" :: r1.2 ++ [Event.printLn "[Exiting]"])
  else
    let r2 := enable_cli r1.1
    .ok r2.1 (Event.printLn "" :: r1.2 ++ r2.2)

/-- The command-dispatch table of the main loop, applied to
`input(">>> ").split(" ")`.  The Python source is a `dict` literal
indexed by `command[0]` and immediately called on `command[1:]`: an
unrecognized first token raises an uncaught `KeyError`; the nested
dicts for `enable`/`motor`/`shader` likewise raise `KeyError` on an
unknown sub-verb, `IndexError` when `args[0]`/`args[1]` is missing, and
`int(...)`/`float(...)` raise `ValueError` on malformed numbers.  None
of these is caught anywhere, so each aborts the process. -/
def dispatch (command : List String) (s : State) : Outcome :=
  match command with
  | [] => .crashed "IndexError" []
  | verb :: args =>
    if verb = "" then .ok s []
    else if verb = "monitor" then
      let r := disable_cli s
      .ok r.1 r.2
    else if verb = "q" then .exited 0 [Event.printLn "[Exiting]"]
    else if verb = "quit" then .exited 0 [Event.printLn "[Exiting]"]
    else if verb = "enable" then
      match args with
      | [] => .crashed "IndexError" []
      | sub :: args2 =>
        if sub = "experiment" then
          match args2 with
          | [] => .crashed "IndexError" []
          | numStr :: _ =>
            match pyInt numStr with
            | none => .crashed "ValueError" []
            | some n =>
              let r := enable_experiment n s
              .ok r.1 r.2
        else .crashed "KeyError" []
    else if verb = "motor" then
      match args with
      | [] => .crashed "IndexError" []
      | sub :: args2 =>
        if sub = "inc" then
          match args2 with
          | [] => .crashed "IndexError" []
          | v :: _ =>
            match pyInt v with
            | none => .crashed "ValueError" []
            | some steps => .ok s [Event.deviceWrite ("motor inc " ++ toString steps)]
        else if sub = "rot" then
          match args2 with
          | [] => .crashed "IndexError" []
          | v :: _ =>
            match pyFloat v with
            | none => .crashed "ValueError" []
            | some degrees => .ok s [Event.deviceWrite ("motor rot " ++ formatFloat degrees)]
        else .crashed "KeyError" []
    else if verb = "shader" then
      match args with
      | [] => .crashed "IndexError" []
      | sub :: _ =>
        if sub = "open" then .ok s [Event.deviceWrite "shader open"]
        else if sub = "close" then .ok s [Event.deviceWrite "shader close"]
        else .crashed "KeyError" []
    else if verb = "compile" then .ok s [Event.systemCall "make"]
    else if verb = "flash" then .ok s [Event.systemCall "make upload"]
    else .crashed "KeyError" []

/-- The `if CLI_ACTIVE:` block of the main loop: print the help text on
the first CLI iteration (clearing `FIRST_CLI_RUN`), then read a command,
split it on single spaces, and dispatch it. -/
def cliPhase (s : State) (cmdInput : String) : Outcome :=
  let r0 : State × List Event :=
    if s.firstCliRun then
      ({ s with firstCliRun := false }, [Event.printLn cli_help])
    else (s, [])
  (dispatch (pySplit cmdInput ' ') r0.1).prepend r0.2

/-- The `else:` branch of the main loop: echo a non-empty telemetry
line. -/
def printPhase (line : String) (s : State) : Outcome :=
  .ok s (if line = "" then [] else [Event.printLn line])

/-- The recording block of the main loop (`if EXPERIMENT_ACTIVE:`), run
every iteration after the CLI/print phase.  A line starting `"C: "` has
its remainder parsed with `float` and appended (with the current
`TEMP_SAMPLE` index and the iteration's timestamp) to the experiment's
`temp.txt`, then `TEMP_SAMPLE` is incremented; a line starting `"R: "`
goes the same way through `int`, `rot.txt` and `ROT_SAMPLE`.  The parent
directory is created first (`parents=True, exist_ok=True`).  A parse
failure raises `ValueError`; when the `ioFault` oracle is set the file
operation raises `OSError`.  Neither exception is caught anywhere. -/
def recordStep (ioFault : Bool) (sample_dt : String) (line : String) (s : State) : Outcome :=
  if s.experimentActive then
    let stepC : Outcome :=
      if pyStartsWith line "C: " then
        match pyFloat (pyStrip (pySliceFrom line 3)) with
        | none => .crashed "ValueError" []
        | some temp =>
          if ioFault then .crashed "OSError" []
          else
            let key := pyStr s.experimentNumber
            .ok { s with
              fs := { s.fs with
                dirs := mkdirParents s.fs.dirs key
                tempFiles := appendFile s.fs.tempFiles key
                  (toString s.tempSample ++ "|" ++ sample_dt ++ "|" ++ formatFloat temp) }
              tempSample := s.tempSample + 1 } []
      else .ok s []
    stepC.andThen fun s1 =>
      if pyStartsWith line "R: " then
        match pyInt (pyStrip (pySliceFrom line 3)) with
        | none => .crashed "ValueError" []
        | some steps =>
          if ioFault then .crashed "OSError" []
          else
            let key := pyStr s1.experimentNumber
            .ok { s1 with
              fs := { s1.fs with
                dirs := mkdirParents s1.fs.dirs key
                rotFiles := appendFile s1.fs.rotFiles key
                  (toString s1.rotSample ++ "|" ++ sample_dt ++ "|" ++ toString steps) }
              rotSample := s1.rotSample + 1 } []
      else .ok s1 []
  else .ok s []

/-- The per-iteration inputs of the main loop: the raw line returned by
`device.readline()` (empty on timeout), the timestamp
`dt.datetime.now().isoformat()` taken right after the read, the text the
operator would type at `input(">>> ")` (consumed only in CLI mode), and
the fault oracle for the iteration's file operations. -/
structure IterInput where
  raw_line : String
  sample_dt : String
  cmdInput : String
  ioFault : Bool
deriving DecidableEq

/-- One iteration of the `while True:` main loop: read and strip the
line, then either solicit and dispatch a command (CLI mode) or echo the
line (monitoring mode), then offer the same stripped line to the
recording block. -/
def loopIter (inp : IterInput) (s : State) : Outcome :=
  let line := pyStrip inp.raw_line
  (if s.cliActive then cliPhase s inp.cmdInput else printPhase line s).andThen
    (recordStep inp.ioFault inp.sample_dt line)

/-- A step of an execution: one main-loop iteration, or a delivery of
SIGINT between iterations (the handler runs as an atomic interruption of
the single control thread). -/
inductive LoopEvent where
  | iter (inp : IterInput)
  | sigint
deriving DecidableEq

/-- Execute one loop event. -/
def stepLoop : LoopEvent → State → Outcome
  | .iter inp, s => loopIter inp s
  | .sigint, s => on_sigint s

/-- Run a schedule of loop events from a state; the run stops early at
`sys.exit` or at an uncaught exception. -/
def runTrace : List LoopEvent → State → Outcome
  | [], s => .ok s []
  | e :: rest, s => (stepLoop e s).andThen (runTrace rest)

/-- The state a normal return carries, if any. -/
def Outcome.okState : Outcome → Option State
  | .ok s _ => some s
  | .exited _ _ => none
  | .crashed _ _ => none

/-- Whether executing one loop event from a state renders the help text:
an iteration entered with `CLI_ACTIVE` and `FIRST_CLI_RUN` both set
prints `cli_help()`; the signal handler never does. -/
def rendersHelp (e : LoopEvent) (s : State) : Bool :=
  match e with
  | .iter _ => s.cliActive && s.firstCliRun
  | .sigint => false

/-- How many times a schedule of loop events renders the help text when
run from `s` (steps after a `sys.exit` or an uncaught exception do not
run and render nothing; a crashing CLI iteration still rendered the help
before prompting). -/
def helpRenderCount : List LoopEvent → State → Nat
  | [], _ => 0
  | e :: rest, s =>
    (if rendersHelp e s then 1 else 0) +
      (match stepLoop e s with
       | .ok s1 _ => helpRenderCount rest s1
       | .exited _ _ => 0
       | .crashed _ _ => 0)

/-- A state sitting at the CLI prompt (help already shown), as reached
for example by a first SIGINT from the initial state followed by an
iteration. -/
def cliState : State :=
  { initState with cliActive := true, firstCliRun := false }

/-- A state with experiment 7 freshly enabled, monitoring. -/
def activeState : State :=
  { initState with experimentActive := true, experimentNumber := some 7,
                   cliActive := false, firstCliRun := false }

/-- The state produced by dispatching `enable experiment 7` from
`cliState`. -/
def enabledState : State :=
  { cliState with experimentActive := true, experimentNumber := some 7,
                  tempSample := 0, rotSample := 0, cliActive := false }

/-! Helper lemmas about the embedding, shared by the claim theorems. -/

/-- Inversion for `Outcome.prepend` returning normally. -/
theorem Outcome.prepend_ok {o : Outcome} {pre evs : List Event} {s1 : State}
    (h : o.prepend pre = .ok s1 evs) :
    ∃ evs1, o = .ok s1 evs1 ∧ evs = pre ++ evs1 := by
  cases o <;> simp_all [Outcome.prepend]

/-- Inversion for `Outcome.andThen` returning normally. -/
theorem Outcome.andThen_ok {o : Outcome} {f : State → Outcome} {s2 : State}
    {evs : List Event} (h : o.andThen f = .ok s2 evs) :
    ∃ s1 evs1 evs2, o = .ok s1 evs1 ∧ f s1 = .ok s2 evs2 ∧ evs = evs1 ++ evs2 := by
  cases o with
  | ok s1 evs1 =>
    simp only [Outcome.andThen] at h
    obtain ⟨evs2, hf, hev⟩ := Outcome.prepend_ok h
    exact ⟨s1, evs1, evs2, rfl, hf, hev⟩
  | exited c e => simp [Outcome.andThen] at h
  | crashed x e => simp [Outcome.andThen] at h

/-- Appending to a file changes exactly that file's lines. -/
theorem fileLines_appendFile_self (files : List (String × List String))
    (key line : String) :
    fileLines (appendFile files key line) key = fileLines files key ++ [line] := by
  induction files with
  | nil => simp [appendFile, fileLines]
  | cons p rest ih =>
    obtain ⟨k, ls⟩ := p
    by_cases h : k = key
    · subst h
      simp [appendFile, fileLines]
    · have hb : (k == key) = false := by simp [h]
      simp only [appendFile, hb, Bool.false_eq_true, if_false]
      simp only [fileLines, List.find?, hb]
      exact ih

/-- Appending to one file leaves every other file unchanged. -/
theorem fileLines_appendFile_ne (files : List (String × List String))
    (key key2 line : String) (hne : key2 ≠ key) :
    fileLines (appendFile files key line) key2 = fileLines files key2 := by
  have hbne : (key == key2) = false := by simp [Ne.symm hne]
  induction files with
  | nil => simp [appendFile, fileLines, List.find?, hbne]
  | cons p rest ih =>
    obtain ⟨k, ls⟩ := p
    by_cases h : k = key
    · subst h
      simp [appendFile, fileLines, List.find?, hbne]
    · have hb : (k == key) = false := by simp [h]
      simp only [appendFile, hb, Bool.false_eq_true, if_false]
      by_cases h2 : k = key2
      · subst h2
        simp [fileLines, List.find?]
      · have hb2 : (k == key2) = false := by simp [h2]
        simp only [fileLines, List.find?, hb2]
        exact ih

/-- Every run of the dispatch table: it exits, aborts with an uncaught
exception, or returns with the state unchanged, the state of
`disable_cli`, or the state of `enable_experiment`. -/
theorem dispatch_cases (cmd : List String) (s : State) :
    (∃ code evs, dispatch cmd s = .exited code evs) ∨
    (∃ exn evs, dispatch cmd s = .crashed exn evs) ∨
    (∃ evs, dispatch cmd s = .ok s evs) ∨
    (∃ evs, dispatch cmd s = .ok (disable_cli s).1 evs) ∨
    (∃ n evs, dispatch cmd s = .ok (enable_experiment n s).1 evs) := by
  cases cmd with
  | nil => exact .inr (.inl ⟨"IndexError", [], rfl⟩)
  | cons verb args =>
    by_cases h1 : verb = ""
    · exact .inr (.inr (.inl ⟨[], by simp [dispatch, h1]⟩))
    · by_cases h2 : verb = "monitor"
      · exact .inr (.inr (.inr (.inl ⟨(disable_cli s).2, by simp [dispatch, h1, h2]⟩)))
      · by_cases h3 : verb = "q"
        · exact .inl ⟨0, [Event.printLn "[Exiting]"], by simp [dispatch, h1, h2, h3]⟩
        · by_cases h4 : verb = "quit"
          · exact .inl ⟨0, [Event.printLn "[Exiting]"], by simp [dispatch, h1, h2, h3, h4]⟩
          · by_cases h5 : verb = "enable"
            · cases args with
              | nil =>
                exact .inr (.inl ⟨"IndexError", [], by simp [dispatch, h1, h2, h3, h4, h5]⟩)
              | cons sub args2 =>
                by_cases hs : sub = "experiment"
                · cases args2 with
                  | nil =>
                    exact .inr (.inl ⟨"IndexError", [],
                      by simp [dispatch, h1, h2, h3, h4, h5, hs]⟩)
                  | cons numStr rest =>
                    cases hn : pyInt numStr with
                    | none =>
                      exact .inr (.inl ⟨"ValueError", [],
                        by simp [dispatch, h1, h2, h3, h4, h5, hs, hn]⟩)
                    | some n =>
                      exact .inr (.inr (.inr (.inr ⟨n, (enable_experiment n s).2,
                        by simp [dispatch, h1, h2, h3, h4, h5, hs, hn]⟩)))
                · exact .inr (.inl ⟨"KeyError", [],
                    by simp [dispatch, h1, h2, h3, h4, h5, hs]⟩)
            · by_cases h6 : verb = "motor"
              · cases args with
                | nil =>
                  exact .inr (.inl ⟨"IndexError", [],
                    by simp [dispatch, h1, h2, h3, h4, h5, h6]⟩)
                | cons sub args2 =>
                  by_cases hi : sub = "inc"
                  · cases args2 with
                    | nil =>
                      exact .inr (.inl ⟨"IndexError", [],
                        by simp [dispatch, h1, h2, h3, h4, h5, h6, hi]⟩)
                    | cons v rest =>
                      cases hn : pyInt v with
                      | none =>
                        exact .inr (.inl ⟨"ValueError", [],
                          by simp [dispatch, h1, h2, h3, h4, h5, h6, hi, hn]⟩)
                      | some steps =>
                        exact .inr (.inr (.inl
                          ⟨[Event.deviceWrite ("motor inc " ++ toString steps)],
                            by simp [dispatch, h1, h2, h3, h4, h5, h6, hi, hn]⟩))
                  · by_cases hr : sub = "rot"
                    · cases args2 with
                      | nil =>
                        exact .inr (.inl ⟨"IndexError", [],
                          by simp [dispatch, h1, h2, h3, h4, h5, h6, hi, hr]⟩)
                      | cons v rest =>
                        cases hn : pyFloat v with
                        | none =>
                          exact .inr (.inl ⟨"ValueError", [],
                            by simp [dispatch, h1, h2, h3, h4, h5, h6, hi, hr, hn]⟩)
                        | some degrees =>
                          exact .inr (.inr (.inl
                            ⟨[Event.deviceWrite ("motor rot " ++ formatFloat degrees)],
                              by simp [dispatch, h1, h2, h3, h4, h5, h6, hi, hr, hn]⟩))
                    · exact .inr (.inl ⟨"KeyError", [],
                        by simp [dispatch, h1, h2, h3, h4, h5, h6, hi, hr]⟩)
              · by_cases h7 : verb = "shader"
                · cases args with
                  | nil =>
                    exact .inr (.inl ⟨"IndexError", [],
                      by simp [dispatch, h1, h2, h3, h4, h5, h6, h7]⟩)
                  | cons sub rest =>
                    by_cases ho : sub = "open"
                    · exact .inr (.inr (.inl ⟨[Event.deviceWrite "shader open"],
                        by simp [dispatch, h1, h2, h3, h4, h5, h6, h7, ho]⟩))
                    · by_cases hc : sub = "close"
                      · exact .inr (.inr (.inl ⟨[Event.deviceWrite "shader close"],
                          by simp [dispatch, h1, h2, h3, h4, h5, h6, h7, ho, hc]⟩))
                      · exact .inr (.inl ⟨"KeyError", [],
                          by simp [dispatch, h1, h2, h3, h4, h5, h6, h7, ho, hc]⟩)
                · by_cases h8 : verb = "compile"
                  · exact .inr (.inr (.inl ⟨[Event.systemCall "make"],
                      by simp [dispatch, h1, h2, h3, h4, h5, h6, h7, h8]⟩))
                  · by_cases h9 : verb = "flash"
                    · exact .inr (.inr (.inl ⟨[Event.systemCall "make upload"],
                        by simp [dispatch, h1, h2, h3, h4, h5, h6, h7, h8, h9]⟩))
                    · exact .inr (.inl ⟨"KeyError", [],
                        by simp [dispatch, h1, h2, h3, h4, h5, h6, h7, h8, h9]⟩)


/-- A normal return of the dispatch table leaves the state unchanged or
applies exactly `disable_cli` or `enable_experiment`. -/
theorem dispatch_ok_state (cmd : List String) (s s1 : State) (evs : List Event)
    (h : dispatch cmd s = .ok s1 evs) :
    s1 = s ∨ s1 = (disable_cli s).1 ∨ ∃ n, s1 = (enable_experiment n s).1 := by
  rcases dispatch_cases cmd s with ⟨c, e, hd⟩ | ⟨x, e, hd⟩ | ⟨e, hd⟩ | ⟨e, hd⟩ | ⟨n, e, hd⟩ <;>
    rw [hd] at h
  · cases h
  · cases h
  · exact .inl (Outcome.ok.inj h).1.symm
  · exact .inr (.inl (Outcome.ok.inj h).1.symm)
  · exact .inr (.inr ⟨n, (Outcome.ok.inj h).1.symm⟩)

/-- Dispatch never touches `FIRST_CLI_RUN`, the file system, or the
sample files; on the experiment fields it either leaves them all
unchanged or performs exactly the `enable_experiment` effect. -/
theorem dispatch_frame (cmd : List String) (s s1 : State) (evs : List Event)
    (h : dispatch cmd s = .ok s1 evs) :
    s1.firstCliRun = s.firstCliRun ∧ s1.fs = s.fs ∧
      ((s1.cliActive = s.cliActive ∧ s1.experimentActive = s.experimentActive ∧
        s1.experimentNumber = s.experimentNumber ∧
        s1.tempSample = s.tempSample ∧ s1.rotSample = s.rotSample) ∨
       (∃ n, s1.cliActive = false ∧ s1.experimentActive = true ∧
         s1.experimentNumber = some n ∧ s1.tempSample = 0 ∧ s1.rotSample = 0) ∨
       (s1.cliActive = false ∧ s1.experimentActive = s.experimentActive ∧
        s1.experimentNumber = s.experimentNumber ∧
        s1.tempSample = s.tempSample ∧ s1.rotSample = s.rotSample)) := by
  rcases dispatch_ok_state cmd s s1 evs h with h1 | h1 | ⟨n, h1⟩ <;> subst h1
  · exact ⟨rfl, rfl, .inl ⟨rfl, rfl, rfl, rfl, rfl⟩⟩
  · exact ⟨rfl, rfl, .inr (.inr ⟨rfl, rfl, rfl, rfl, rfl⟩)⟩
  · exact ⟨rfl, rfl, .inr (.inl ⟨n, rfl, rfl, rfl, rfl, rfl⟩)⟩

/-- The recording block with the experiment inactive: a no-op for every
line (no state change, no directory or file touched, no output). -/
theorem recordStep_inactive (ioFault : Bool) (ts line : String) (s : State)
    (h : s.experimentActive = false) :
    recordStep ioFault ts line s = .ok s [] := by
  simp [recordStep, h]

/-- The recording block on a fault-free `"C: "` line with a parseable
remainder: the experiment directory is (idempotently) created, exactly
one formatted sample line is appended to `temp.txt`, and `TEMP_SAMPLE`
is incremented. -/
theorem recordStep_temp (ts line : String) (s : State) (v : PyFloat)
    (hact : s.experimentActive = true) (hC : pyStartsWith line "C: " = true)
    (hR : pyStartsWith line "R: " = false)
    (hv : pyFloat (pyStrip (pySliceFrom line 3)) = some v) :
    recordStep false ts line s = .ok { s with
      fs := { s.fs with
        dirs := mkdirParents s.fs.dirs (pyStr s.experimentNumber)
        tempFiles := appendFile s.fs.tempFiles (pyStr s.experimentNumber)
          (toString s.tempSample ++ "|" ++ ts ++ "|" ++ formatFloat v) }
      tempSample := s.tempSample + 1 } [] := by
  simp [recordStep, hact, hC, hR, hv, Outcome.andThen, Outcome.prepend]

/-- The recording block on a fault-free `"R: "` line with a parseable
remainder: the experiment directory is (idempotently) created, exactly
one formatted sample line is appended to `rot.txt`, and `ROT_SAMPLE` is
incremented. -/
theorem recordStep_rot (ts line : String) (s : State) (n : Int)
    (hact : s.experimentActive = true) (hC : pyStartsWith line "C: " = false)
    (hR : pyStartsWith line "R: " = true)
    (hn : pyInt (pyStrip (pySliceFrom line 3)) = some n) :
    recordStep false ts line s = .ok { s with
      fs := { s.fs with
        dirs := mkdirParents s.fs.dirs (pyStr s.experimentNumber)
        rotFiles := appendFile s.fs.rotFiles (pyStr s.experimentNumber)
          (toString s.rotSample ++ "|" ++ ts ++ "|" ++ toString n) }
      rotSample := s.rotSample + 1 } [] := by
  simp [recordStep, hact, hC, hR, hn, Outcome.andThen, Outcome.prepend]

/-- The recording block on a line with neither telemetry marker: a no-op
even while an experiment is active. -/
theorem recordStep_unclassified (ioFault : Bool) (ts line : String) (s : State)
    (hC : pyStartsWith line "C: " = false) (hR : pyStartsWith line "R: " = false) :
    recordStep ioFault ts line s = .ok s [] := by
  by_cases hact : s.experimentActive
  · simp [recordStep, hact, hC, hR, Outcome.andThen, Outcome.prepend]
  · simp [recordStep, hact]

/-- A normal return of the recording block never changes
`FIRST_CLI_RUN`, `CLI_ACTIVE`, `EXPERIMENT_ACTIVE` or
`EXPERIMENT_NUMBER`: it touches only the sample counters and files. -/
theorem recordStep_frame (ioFault : Bool) (ts line : String) (s s1 : State)
    (evs : List Event) (h : recordStep ioFault ts line s = .ok s1 evs) :
    s1.firstCliRun = s.firstCliRun ∧ s1.cliActive = s.cliActive ∧
      s1.experimentActive = s.experimentActive ∧
      s1.experimentNumber = s.experimentNumber := by
  by_cases hact : s.experimentActive
  · simp only [recordStep, hact, if_true] at h
    obtain ⟨sm, e1, e2, hC, hRm, he⟩ := Outcome.andThen_ok h
    have hCfields : sm.firstCliRun = s.firstCliRun ∧ sm.cliActive = s.cliActive ∧
        sm.experimentActive = s.experimentActive ∧
        sm.experimentNumber = s.experimentNumber := by
      by_cases hC2 : pyStartsWith line "C: "
      · cases hv : pyFloat (pyStrip (pySliceFrom line 3)) with
        | none => simp [hC2, hv] at hC
        | some v =>
          by_cases hio : ioFault
          · simp [hC2, hv, hio] at hC
          · simp only [hC2, hv, hio, if_true, if_false, Bool.false_eq_true] at hC
            obtain ⟨hs, -⟩ := Outcome.ok.inj hC
            subst hs
            exact ⟨rfl, rfl, hact.symm, rfl⟩
      · simp only [hC2, Bool.false_eq_true, if_false] at hC
        obtain ⟨hs, -⟩ := Outcome.ok.inj hC
        subst hs
        exact ⟨rfl, rfl, rfl, rfl⟩
    have hRfields : s1.firstCliRun = sm.firstCliRun ∧ s1.cliActive = sm.cliActive ∧
        s1.experimentActive = sm.experimentActive ∧
        s1.experimentNumber = sm.experimentNumber := by
      by_cases hR2 : pyStartsWith line "R: "
      · cases hn : pyInt (pyStrip (pySliceFrom line 3)) with
        | none => simp [hR2, hn] at hRm
        | some n =>
          by_cases hio : ioFault
          · simp [hR2, hn, hio] at hRm
          · simp only [hR2, hn, hio, if_true, if_false, Bool.false_eq_true] at hRm
            obtain ⟨hs, -⟩ := Outcome.ok.inj hRm
            subst hs
            exact ⟨rfl, rfl, rfl, rfl⟩
      · simp only [hR2, Bool.false_eq_true, if_false] at hRm
        obtain ⟨hs, -⟩ := Outcome.ok.inj hRm
        subst hs
        exact ⟨rfl, rfl, rfl, rfl⟩
    exact ⟨hRfields.1.trans hCfields.1, hRfields.2.1.trans hCfields.2.1,
      hRfields.2.2.1.trans hCfields.2.2.1, hRfields.2.2.2.trans hCfields.2.2.2⟩
  · simp only [recordStep, hact, Bool.false_eq_true, if_false] at h
    obtain ⟨hs, -⟩ := Outcome.ok.inj h
    subst hs
    exact ⟨rfl, rfl, rfl, rfl⟩

/-- A normal return of the CLI block always leaves `FIRST_CLI_RUN`
false, never touches the file system or (except through
`enable_experiment`/`disable_cli`) the experiment fields. -/
theorem cliPhase_ok (s : State) (ci : String) (s1 : State) (evs : List Event)
    (h : cliPhase s ci = .ok s1 evs) :
    s1.firstCliRun = false ∧ s1.fs = s.fs ∧
      ((s1.cliActive = s.cliActive ∧ s1.experimentActive = s.experimentActive ∧
        s1.experimentNumber = s.experimentNumber ∧
        s1.tempSample = s.tempSample ∧ s1.rotSample = s.rotSample) ∨
       (∃ n, s1.cliActive = false ∧ s1.experimentActive = true ∧
         s1.experimentNumber = some n ∧ s1.tempSample = 0 ∧ s1.rotSample = 0) ∨
       (s1.cliActive = false ∧ s1.experimentActive = s.experimentActive ∧
        s1.experimentNumber = s.experimentNumber ∧
        s1.tempSample = s.tempSample ∧ s1.rotSample = s.rotSample)) := by
  unfold cliPhase at h
  by_cases hf : s.firstCliRun <;>
    simp only [hf, if_true, if_false, Bool.false_eq_true] at h <;>
    obtain ⟨evs1, hd, -⟩ := Outcome.prepend_ok h <;>
    have hfr := dispatch_frame _ _ _ _ hd
  · exact ⟨hfr.1, hfr.2.1, hfr.2.2⟩
  · simp only [Bool.not_eq_true] at hf
    exact ⟨hfr.1.trans hf, hfr.2.1, hfr.2.2⟩

/-- A normal return of the signal handler: the handler fired from
monitoring mode, enabled the CLI, left `FIRST_CLI_RUN`, the counters and
all files untouched, and left no experiment active (already-written
samples are never deleted). -/
theorem on_sigint_ok (s s1 : State) (evs : List Event)
    (h : on_sigint s = .ok s1 evs) :
    s1.firstCliRun = s.firstCliRun ∧ s1.cliActive = true ∧
      s1.fs = s.fs ∧ s1.tempSample = s.tempSample ∧ s1.rotSample = s.rotSample ∧
      ((s1.experimentActive = s.experimentActive ∧
        s1.experimentNumber = s.experimentNumber) ∨
       (s1.experimentActive = false ∧ s1.experimentNumber = none)) := by
  by_cases hact : s.experimentActive <;>
    by_cases hcli : s.cliActive <;>
    simp only [on_sigint, disable_experiment, enable_cli, hact, hcli, if_true, if_false,
      Bool.false_eq_true, Bool.not_eq_true] at h
  · cases h
  · obtain ⟨hs, -⟩ := Outcome.ok.inj h
    subst hs
    exact ⟨rfl, rfl, rfl, rfl, rfl, .inr ⟨rfl, rfl⟩⟩
  · cases h
  · simp only [Bool.not_eq_true] at hact
    obtain ⟨hs, -⟩ := Outcome.ok.inj h
    subst hs
    exact ⟨rfl, rfl, rfl, rfl, rfl, .inl ⟨hact.symm, rfl⟩⟩

/-- A normal return of one main-loop iteration sets `FIRST_CLI_RUN` to
its old value cleared by CLI entry: it becomes false exactly when the
iteration ran in CLI mode, and is preserved otherwise. -/
theorem loopIter_firstCliRun (inp : IterInput) (s s1 : State) (evs : List Event)
    (h : loopIter inp s = .ok s1 evs) :
    s1.firstCliRun = (s.firstCliRun && !s.cliActive) := by
  unfold loopIter at h
  obtain ⟨sm, e1, e2, h1, h2, -⟩ := Outcome.andThen_ok h
  have hr := (recordStep_frame _ _ _ _ _ _ h2).1
  by_cases hc : s.cliActive <;>
    simp only [hc, if_true, if_false, Bool.false_eq_true] at h1
  · have hm := (cliPhase_ok _ _ _ _ h1).1
    simp [hc, hr, hm]
  · simp only [printPhase] at h1
    obtain ⟨hs, -⟩ := Outcome.ok.inj h1
    subst hs
    simp [hc, hr]

/-- A normal return of one step (iteration or signal) preserves or
clears `FIRST_CLI_RUN`: it is cleared exactly by an iteration that ran
in CLI mode. -/
theorem stepLoop_firstCliRun (e : LoopEvent) (s s1 : State) (evs : List Event)
    (h : stepLoop e s = .ok s1 evs) :
    s1.firstCliRun = (match e with
      | .iter _ => s.firstCliRun && !s.cliActive
      | .sigint => s.firstCliRun) := by
  cases e with
  | iter inp => exact loopIter_firstCliRun inp s s1 evs h
  | sigint => exact (on_sigint_ok s s1 evs h).1

/-- Once `FIRST_CLI_RUN` is false it stays false, and no later schedule
ever renders the help text again. -/
theorem helpCount_of_shown (tr : List LoopEvent) (s : State)
    (h : s.firstCliRun = false) :
    helpRenderCount tr s = 0 ∧
      ∀ s1 evs, runTrace tr s = .ok s1 evs → s1.firstCliRun = false := by
  induction tr generalizing s with
  | nil =>
    refine ⟨rfl, ?_⟩
    intro s1 evs hrun
    simp only [runTrace] at hrun
    obtain ⟨hs, -⟩ := Outcome.ok.inj hrun
    subst hs
    exact h
  | cons e rest ih =>
    have hrend : rendersHelp e s = false := by
      cases e <;> simp [rendersHelp, h]
    cases hstep : stepLoop e s with
    | ok sm evsm =>
      have hm : sm.firstCliRun = false := by
        have hfc := stepLoop_firstCliRun e s sm evsm hstep
        cases e <;> simp_all
      refine ⟨by simp [helpRenderCount, hrend, hstep, (ih sm hm).1], ?_⟩
      intro s1 evs hrun
      simp only [runTrace, hstep, Outcome.andThen] at hrun
      obtain ⟨evs2, hrest, -⟩ := Outcome.prepend_ok hrun
      exact (ih sm hm).2 s1 evs2 hrest
    | exited c evsm =>
      refine ⟨by simp [helpRenderCount, hrend, hstep], ?_⟩
      intro s1 evs hrun
      simp [runTrace, hstep, Outcome.andThen] at hrun
    | crashed x evsm =>
      refine ⟨by simp [helpRenderCount, hrend, hstep], ?_⟩
      intro s1 evs hrun
      simp [runTrace, hstep, Outcome.andThen] at hrun

/-- From a state whose help is still pending, any schedule renders the
help at most once, and afterwards the flag is set exactly while no
render has happened yet. -/
theorem helpCount_of_fresh (tr : List LoopEvent) (s : State)
    (h : s.firstCliRun = true) :
    helpRenderCount tr s ≤ 1 ∧
      ∀ s1 evs, runTrace tr s = .ok s1 evs →
        (s1.firstCliRun = true ↔ helpRenderCount tr s = 0) := by
  induction tr generalizing s with
  | nil =>
    refine ⟨Nat.zero_le 1, ?_⟩
    intro s1 evs hrun
    simp only [runTrace] at hrun
    obtain ⟨hs, -⟩ := Outcome.ok.inj hrun
    subst hs
    simp [helpRenderCount, h]
  | cons e rest ih =>
    by_cases hrend : rendersHelp e s = true
    · cases hstep : stepLoop e s with
      | ok sm evsm =>
        have hm : sm.firstCliRun = false := by
          have hfc := stepLoop_firstCliRun e s sm evsm hstep
          cases e with
          | iter inp =>
            simp only [rendersHelp, Bool.and_eq_true] at hrend
            simp [hfc, hrend.1]
          | sigint => simp [rendersHelp] at hrend
        have hz := helpCount_of_shown rest sm hm
        refine ⟨by simp [helpRenderCount, hrend, hstep, hz.1], ?_⟩
        intro s1 evs hrun
        simp only [runTrace, hstep, Outcome.andThen] at hrun
        obtain ⟨evs2, hrest, -⟩ := Outcome.prepend_ok hrun
        have hdone := hz.2 s1 evs2 hrest
        simp [helpRenderCount, hrend, hstep, hz.1, hdone]
      | exited c evsm =>
        refine ⟨by simp [helpRenderCount, hrend, hstep], ?_⟩
        intro s1 evs hrun
        simp [runTrace, hstep, Outcome.andThen] at hrun
      | crashed x evsm =>
        refine ⟨by simp [helpRenderCount, hrend, hstep], ?_⟩
        intro s1 evs hrun
        simp [runTrace, hstep, Outcome.andThen] at hrun
    · simp only [Bool.not_eq_true] at hrend
      cases hstep : stepLoop e s with
      | ok sm evsm =>
        have hm : sm.firstCliRun = true := by
          have hfc := stepLoop_firstCliRun e s sm evsm hstep
          cases e with
          | iter inp =>
            simp only [rendersHelp, Bool.and_eq_true] at hrend
            rw [h] at hrend
            have hcli : s.cliActive = false := by
              cases hca : s.cliActive
              · rfl
              · rw [hca] at hrend; simp at hrend
            simp [hfc, h, hcli]
          | sigint => simp [hfc, h]
        refine ⟨?_, ?_⟩
        · have := (ih sm hm).1
          simpa [helpRenderCount, hrend, hstep] using this
        · intro s1 evs hrun
          simp only [runTrace, hstep, Outcome.andThen] at hrun
          obtain ⟨evs2, hrest, -⟩ := Outcome.prepend_ok hrun
          have := (ih sm hm).2 s1 evs2 hrest
          simpa [helpRenderCount, hrend, hstep] using this
      | exited c evsm =>
        refine ⟨by simp [helpRenderCount, hrend, hstep], ?_⟩
        intro s1 evs hrun
        simp [runTrace, hstep, Outcome.andThen] at hrun
      | crashed x evsm =>
        refine ⟨by simp [helpRenderCount, hrend, hstep], ?_⟩
        intro s1 evs hrun
        simp [runTrace, hstep, Outcome.andThen] at hrun

/-- Over one normal step, the experiment flag and number move only
together: both untouched, both set by `enable_experiment`, or both
cleared by `disable_experiment`. -/
theorem stepLoop_exp (e : LoopEvent) (s s1 : State) (evs : List Event)
    (h : stepLoop e s = .ok s1 evs) :
    (s1.experimentActive = s.experimentActive ∧
      s1.experimentNumber = s.experimentNumber) ∨
    (∃ n, s1.experimentActive = true ∧ s1.experimentNumber = some n) ∨
    (s1.experimentActive = false ∧ s1.experimentNumber = none) := by
  cases e with
  | sigint =>
    rcases (on_sigint_ok s s1 evs h).2.2.2.2.2 with h1 | h1
    · exact .inl h1
    · exact .inr (.inr h1)
  | iter inp =>
    unfold stepLoop loopIter at h
    obtain ⟨sm, e1, e2, h1, h2, -⟩ := Outcome.andThen_ok h
    have hr := recordStep_frame _ _ _ _ _ _ h2
    by_cases hc : s.cliActive <;>
      simp only [hc, if_true, if_false, Bool.false_eq_true] at h1
    · rcases (cliPhase_ok _ _ _ _ h1).2.2 with h3 | ⟨n, h3⟩ | h3
      · exact .inl ⟨hr.2.2.1.trans h3.2.1, hr.2.2.2.trans h3.2.2.1⟩
      · exact .inr (.inl ⟨n, hr.2.2.1.trans h3.2.1, hr.2.2.2.trans h3.2.2.1⟩)
      · exact .inl ⟨hr.2.2.1.trans h3.2.1, hr.2.2.2.trans h3.2.2.1⟩
    · simp only [printPhase] at h1
      obtain ⟨hs, -⟩ := Outcome.ok.inj h1
      subst hs
      exact .inl ⟨hr.2.2.1, hr.2.2.2⟩

/-- The coupling invariant is preserved along every normally-returning
schedule: if the flag implies a defined number at the start, it does at
the end. -/
theorem runTrace_exp_inv (tr : List LoopEvent) (s : State)
    (hs : s.experimentActive = true → s.experimentNumber ≠ none) :
    ∀ s1 evs, runTrace tr s = .ok s1 evs →
      (s1.experimentActive = true → s1.experimentNumber ≠ none) := by
  induction tr generalizing s with
  | nil =>
    intro s1 evs h
    simp only [runTrace] at h
    obtain ⟨h1, -⟩ := Outcome.ok.inj h
    subst h1
    exact hs
  | cons e rest ih =>
    intro s1 evs h
    simp only [runTrace] at h
    obtain ⟨sm, e1, e2, h1, h2, -⟩ := Outcome.andThen_ok h
    rcases stepLoop_exp e s sm e1 h1 with h3 | ⟨n, h3⟩ | h3
    · exact ih sm (by rw [h3.1, h3.2]; exact hs) s1 e2 h2
    · exact ih sm (by rw [h3.2]; intro _; exact Option.some_ne_none n) s1 e2 h2
    · exact ih sm (by rw [h3.1]; intro hT; cases hT) s1 e2 h2

/-! Claim theorems. -/

/-- C1 counterexample: the dispatch table is a `dict` lookup immediately
applied, so an unrecognized leading verb raises an uncaught `KeyError`
that aborts the process with no visible error report, contradicting the
claim that dispatch reports an error and never aborts. -/
theorem C1_counterexample :
    dispatch ["frobnicate"] initState = .crashed "KeyError" [] := by rfl

/-- C1 (amended): for every unrecognized leading verb, and for missing
or malformed required arguments of the recognized verbs, dispatch raises
an uncaught exception (`KeyError`, `IndexError` or `ValueError`) that
aborts the process; no state is mutated and no error message is printed
before the abort. -/
theorem C1_malformed_aborts :
    (∀ (verb : String) (args : List String) (s : State),
        verb ∉ (["", "monitor", "q", "quit", "enable", "motor", "shader",
          "compile", "flash"] : List String) →
        dispatch (verb :: args) s = .crashed "KeyError" []) ∧
    (∀ s : State, dispatch ["enable"] s = .crashed "IndexError" []) ∧
    (∀ (s : State) (nstr : String), pyInt nstr = none →
        dispatch ["enable", "experiment", nstr] s = .crashed "ValueError" []) ∧
    (∀ (s : State) (vstr : String), pyInt vstr = none →
        dispatch ["motor", "inc", vstr] s = .crashed "ValueError" []) ∧
    (∀ (s : State) (vstr : String), pyFloat vstr = none →
        dispatch ["motor", "rot", vstr] s = .crashed "ValueError" []) := by
  refine ⟨?_, ?_, ?_, ?_, ?_⟩
  · intro verb args s hv
    simp only [List.mem_cons, List.not_mem_nil, or_false, not_or] at hv
    obtain ⟨h1, h2, h3, h4, h5, h6, h7, h8, h9⟩ := hv
    simp [dispatch, h1, h2, h3, h4, h5, h6, h7, h8, h9]
  · intro s
    rfl
  · intro s nstr h
    simp [dispatch, h]
  · intro s vstr h
    simp [dispatch, h]
  · intro s vstr h
    simp [dispatch, h]

/-- C1 witness: a malformed experiment number aborts via `ValueError`. -/
theorem C1_witness :
    dispatch ["enable", "experiment", "twelve"] initState =
      .crashed "ValueError" [] :=
  C1_malformed_aborts.2.2.1 initState "twelve" (by decide)

/-- C2 counterexample: issuing `enable experiment 7` at the CLI prompt
returns normally but with `CLI_ACTIVE` false — `enable_experiment` calls
`disable_cli()`, so the session is no longer in CommandLine mode,
contradicting the claim that the mode is unchanged. -/
theorem C2_counterexample :
    (dispatch ["enable", "experiment", "7"] cliState).okState.map State.cliActive =
      some false := by rfl

/-- C2 (amended): dispatching `enable experiment <n>` resets both sample
counters to 0 and sets the active experiment to `n`, but it also always
leaves CommandLine mode: `enable_experiment` ends by calling
`disable_cli`, so besides `monitor` and `quit`, `enable experiment` is a
third command that leaves the CLI. -/
theorem C2_enable_disables_cli (s : State) (nstr : String) (n : Int)
    (h : pyInt nstr = some n) :
    dispatch ["enable", "experiment", nstr] s =
      .ok { s with experimentActive := true, experimentNumber := some n,
                   tempSample := 0, rotSample := 0, cliActive := false }
        [Event.printLn ("[Enable] Experiment " ++ toString n ++ "..."),
         Event.printLn "[Disable] CLI..."] := by
  simp [dispatch, h, enable_experiment, disable_cli]

/-- C2 witness: `enable experiment 7` from the CLI state. -/
theorem C2_witness :
    dispatch ["enable", "experiment", "7"] cliState =
      .ok { cliState with experimentActive := true, experimentNumber := some 7,
                          tempSample := 0, rotSample := 0, cliActive := false }
        [Event.printLn ("[Enable] Experiment " ++ toString (7 : Int) ++ "..."),
         Event.printLn "[Disable] CLI..."] :=
  C2_enable_disables_cli cliState "7" 7 (by decide)

/-- C6: when no experiment is active the recording block is a no-op for
every telemetry line and every fault oracle: the state (including every
directory and file) is returned unchanged and nothing is printed. -/
theorem C6_inactive_noop (ioFault : Bool) (ts line : String) (s : State)
    (h : s.experimentActive = false) :
    recordStep ioFault ts line s = .ok s [] := by
  simp [recordStep, h]

/-- C6 witness: a rotation line while idle touches nothing. -/
theorem C6_witness :
    recordStep false "2024-06-01T12:00:00" "R: 7" initState = .ok initState [] :=
  C6_inactive_noop false "2024-06-01T12:00:00" "R: 7" initState rfl

/-- C9: dispatching `motor rot -45.0` produces exactly one outbound
device write whose payload is exactly `"motor rot -45.0"` (no trailing
newline is added anywhere), and the state — mode, experiment fields,
counters and files — is returned unchanged. -/
theorem C9_motor_rot (s : State) :
    dispatch ["motor", "rot", "-45.0"] s =
      .ok s [Event.deviceWrite "motor rot -45.0"] := by rfl

/-- C3 counterexample: with experiment 7 active, a directory/file fault
while recording `"C: 21.5"` raises `OSError` out of the iteration — the
loop does not continue and no error is reported, contradicting the
claim that a recording I/O failure is reported and survived. -/
theorem C3_counterexample :
    loopIter { raw_line := "C: 21.5", sample_dt := "2024-06-01T12:00:00",
               cmdInput := "", ioFault := true } activeState =
      .crashed "OSError" [Event.printLn "C: 21.5"] := by rfl

/-- C3 (amended): the recording block contains no exception handling, so
a directory-creation or file-write failure while recording a sample
during an active experiment raises an uncaught `OSError` that propagates
out of the main loop and terminates the process (on either channel, and
the iteration as a whole aborts the same way). -/
theorem C3_io_fault_aborts :
    (∀ (ts line : String) (s : State) (v : PyFloat),
        s.experimentActive = true → pyStartsWith line "C: " = true →
        pyFloat (pyStrip (pySliceFrom line 3)) = some v →
        recordStep true ts line s = .crashed "OSError" []) ∧
    (∀ (ts line : String) (s : State) (n : Int),
        s.experimentActive = true → pyStartsWith line "C: " = false →
        pyStartsWith line "R: " = true →
        pyInt (pyStrip (pySliceFrom line 3)) = some n →
        recordStep true ts line s = .crashed "OSError" []) ∧
    (∀ (inp : IterInput) (s : State) (v : PyFloat),
        s.cliActive = false → s.experimentActive = true → inp.ioFault = true →
        pyStartsWith (pyStrip inp.raw_line) "C: " = true →
        pyFloat (pyStrip (pySliceFrom (pyStrip inp.raw_line) 3)) = some v →
        loopIter inp s = .crashed "OSError" [Event.printLn (pyStrip inp.raw_line)]) := by
  refine ⟨?_, ?_, ?_⟩
  · intro ts line s v hact hC hv
    simp [recordStep, hact, hC, hv, Outcome.andThen, Outcome.prepend]
  · intro ts line s n hact hC hR hn
    simp [recordStep, hact, hC, hR, hn, Outcome.andThen, Outcome.prepend]
  · intro inp s v hcli hact hio hC hv
    have hne : pyStrip inp.raw_line ≠ "" := by
      intro he
      rw [he] at hC
      exact absurd hC (by decide)
    simp only [loopIter, hcli, Bool.false_eq_true, if_false, printPhase, hne,
      Outcome.andThen, Outcome.prepend, if_neg]
    rw [hio]
    simp [recordStep, hact, hC, hv, Outcome.andThen, Outcome.prepend]

/-- C3 witness: the temperature-channel fault case at a concrete
state and line. -/
theorem C3_witness :
    recordStep true "2024-06-01T12:00:00" "C: 21.5" activeState =
      .crashed "OSError" [] :=
  C3_io_fault_aborts.1 "2024-06-01T12:00:00" "C: 21.5" activeState
    ⟨false, 21, 5, 1⟩ rfl (by decide) (by decide)

/-- C4: while an experiment is active and the iteration's file
operations succeed, a `"C: "` line whose remainder parses as a float
appends exactly one line `"<index>|<timestamp>|<value>"` to that
experiment's temperature file, where the index is the current
`TEMP_SAMPLE` counter, which is then incremented (so successive samples
carry 0, 1, 2, ... after the fresh-enable reset); an `"R: "` line with
an integer remainder does the same through `ROT_SAMPLE` and the rotation
file; a line with neither prefix is never recorded.  No other file or
counter is touched in each case. -/
theorem C4_record_classified :
    (∀ (ts line : String) (s : State) (v : PyFloat),
        s.experimentActive = true → pyStartsWith line "C: " = true →
        pyStartsWith line "R: " = false →
        pyFloat (pyStrip (pySliceFrom line 3)) = some v →
        ∃ s2, recordStep false ts line s = .ok s2 [] ∧
          fileLines s2.fs.tempFiles (pyStr s.experimentNumber) =
            fileLines s.fs.tempFiles (pyStr s.experimentNumber) ++
              [toString s.tempSample ++ "|" ++ ts ++ "|" ++ formatFloat v] ∧
          s2.tempSample = s.tempSample + 1 ∧ s2.rotSample = s.rotSample ∧
          s2.fs.rotFiles = s.fs.rotFiles ∧
          (∀ k, k ≠ pyStr s.experimentNumber →
            fileLines s2.fs.tempFiles k = fileLines s.fs.tempFiles k)) ∧
    (∀ (ts line : String) (s : State) (n : Int),
        s.experimentActive = true → pyStartsWith line "C: " = false →
        pyStartsWith line "R: " = true →
        pyInt (pyStrip (pySliceFrom line 3)) = some n →
        ∃ s2, recordStep false ts line s = .ok s2 [] ∧
          fileLines s2.fs.rotFiles (pyStr s.experimentNumber) =
            fileLines s.fs.rotFiles (pyStr s.experimentNumber) ++
              [toString s.rotSample ++ "|" ++ ts ++ "|" ++ toString n] ∧
          s2.rotSample = s.rotSample + 1 ∧ s2.tempSample = s.tempSample ∧
          s2.fs.tempFiles = s.fs.tempFiles ∧
          (∀ k, k ≠ pyStr s.experimentNumber →
            fileLines s2.fs.rotFiles k = fileLines s.fs.rotFiles k)) ∧
    (∀ (ioFault : Bool) (ts line : String) (s : State),
        pyStartsWith line "C: " = false → pyStartsWith line "R: " = false →
        recordStep ioFault ts line s = .ok s []) := by
  refine ⟨?_, ?_, ?_⟩
  · intro ts line s v hact hC hR hv
    refine ⟨_, recordStep_temp ts line s v hact hC hR hv,
      fileLines_appendFile_self _ _ _, rfl, rfl, rfl, ?_⟩
    intro k hk
    exact fileLines_appendFile_ne _ _ _ _ hk
  · intro ts line s n hact hC hR hn
    refine ⟨_, recordStep_rot ts line s n hact hC hR hn,
      fileLines_appendFile_self _ _ _, rfl, rfl, rfl, ?_⟩
    intro k hk
    exact fileLines_appendFile_ne _ _ _ _ hk
  · intro ioFault ts line s hC hR
    exact recordStep_unclassified ioFault ts line s hC hR

/-- C4 witness: with experiment 7 freshly enabled, recording
`"C: 21.5"` appends exactly the line `"0|<ts>|21.5"`. -/
theorem C4_witness :
    ∃ s2, recordStep false "2024-06-01T12:00:00" "C: 21.5" activeState = .ok s2 [] ∧
      fileLines s2.fs.tempFiles (pyStr activeState.experimentNumber) =
        fileLines activeState.fs.tempFiles (pyStr activeState.experimentNumber) ++
          [toString activeState.tempSample ++ "|" ++ "2024-06-01T12:00:00" ++ "|" ++
            formatFloat ⟨false, 21, 5, 1⟩] ∧
      s2.tempSample = activeState.tempSample + 1 ∧
      s2.rotSample = activeState.rotSample ∧
      s2.fs.rotFiles = activeState.fs.rotFiles ∧
      (∀ k, k ≠ pyStr activeState.experimentNumber →
        fileLines s2.fs.tempFiles k = fileLines activeState.fs.tempFiles k) :=
  C4_record_classified.1 "2024-06-01T12:00:00" "C: 21.5" activeState
    ⟨false, 21, 5, 1⟩ rfl (by decide) (by decide) (by decide)

/-- C5: the signal handler first deactivates any active experiment
(printing its notice before any mode action, and leaving every file —
hence every already-written sample — untouched), and only then acts on
the mode: from CommandLine it exits the process with code 0, otherwise
it transitions to CommandLine. -/
theorem C5_sigint :
    (∀ s : State, s.experimentActive = true → s.cliActive = true →
        on_sigint s = .exited 0 [Event.printLn "",
          Event.printLn ("[Disable] Experiment " ++ pyStr s.experimentNumber ++ "..."),
          Event.printLn "[Exiting]"]) ∧
    (∀ s : State, s.experimentActive = false → s.cliActive = true →
        on_sigint s = .exited 0 [Event.printLn "", Event.printLn "[Exiting]"]) ∧
    (∀ s : State, s.experimentActive = true → s.cliActive = false →
        on_sigint s = .ok { s with experimentActive := false,
                                   experimentNumber := none, cliActive := true }
          [Event.printLn "",
           Event.printLn ("[Disable] Experiment " ++ pyStr s.experimentNumber ++ "..."),
           Event.printLn "[Enable] CLI..."]) ∧
    (∀ s : State, s.experimentActive = false → s.cliActive = false →
        on_sigint s = .ok { s with cliActive := true }
          [Event.printLn "", Event.printLn "[Enable] CLI..."]) := by
  refine ⟨?_, ?_, ?_, ?_⟩ <;> intro s hact hcli <;>
    simp [on_sigint, disable_experiment, enable_cli, hact, hcli]

/-- C5 witness: SIGINT while monitoring with experiment 7 active
disables the experiment, then enables the CLI. -/
theorem C5_witness :
    on_sigint activeState = .ok { activeState with experimentActive := false,
                                                   experimentNumber := none,
                                                   cliActive := true }
      [Event.printLn "",
       Event.printLn ("[Disable] Experiment " ++ pyStr activeState.experimentNumber ++ "..."),
       Event.printLn "[Enable] CLI..."] :=
  C5_sigint.2.2.1 activeState rfl rfl

/-- C7: the telemetry line fetched at the start of an iteration is
offered to the recorder in that same iteration even when a command
prompt was solicited in between: if the command phase returns normally
and leaves an experiment active, and the line is a parseable
temperature line, the iteration itself appends the sample for exactly
that line (with that iteration's timestamp). -/
theorem C7_same_iteration_record (inp : IterInput) (s s1 : State)
    (evs1 : List Event) (v : PyFloat)
    (hcli : s.cliActive = true)
    (hphase : cliPhase s inp.cmdInput = .ok s1 evs1)
    (hact : s1.experimentActive = true)
    (hC : pyStartsWith (pyStrip inp.raw_line) "C: " = true)
    (hR : pyStartsWith (pyStrip inp.raw_line) "R: " = false)
    (hv : pyFloat (pyStrip (pySliceFrom (pyStrip inp.raw_line) 3)) = some v)
    (hio : inp.ioFault = false) :
    ∃ s2, loopIter inp s = .ok s2 evs1 ∧
      fileLines s2.fs.tempFiles (pyStr s1.experimentNumber) =
        fileLines s1.fs.tempFiles (pyStr s1.experimentNumber) ++
          [toString s1.tempSample ++ "|" ++ inp.sample_dt ++ "|" ++ formatFloat v] ∧
      s2.tempSample = s1.tempSample + 1 := by
  refine ⟨{ s1 with
    fs := { s1.fs with
      dirs := mkdirParents s1.fs.dirs (pyStr s1.experimentNumber)
      tempFiles := appendFile s1.fs.tempFiles (pyStr s1.experimentNumber)
        (toString s1.tempSample ++ "|" ++ inp.sample_dt ++ "|" ++ formatFloat v) }
    tempSample := s1.tempSample + 1 }, ?_, fileLines_appendFile_self _ _ _, rfl⟩
  simp only [loopIter, hcli, if_true]
  rw [hphase]
  simp only [Outcome.andThen]
  rw [hio, recordStep_temp inp.sample_dt (pyStrip inp.raw_line) s1 v hact hC hR hv]
  simp [Outcome.prepend]

/-- C7 witness: at the prompt, `enable experiment 7` is dispatched and
the line `"C: 21.5"` read at the top of the same iteration is recorded
as sample 0. -/
theorem C7_witness :
    ∃ s2, loopIter { raw_line := "C: 21.5", sample_dt := "2024-06-01T12:00:00",
                     cmdInput := "enable experiment 7", ioFault := false } cliState =
      .ok s2 [Event.printLn ("[Enable] Experiment " ++ toString (7 : Int) ++ "..."),
              Event.printLn "[Disable] CLI..."] ∧
      fileLines s2.fs.tempFiles (pyStr (enabledState.experimentNumber)) =
        fileLines enabledState.fs.tempFiles (pyStr enabledState.experimentNumber) ++
          [toString enabledState.tempSample ++ "|" ++ "2024-06-01T12:00:00" ++ "|" ++
            formatFloat ⟨false, 21, 5, 1⟩] ∧
      s2.tempSample = enabledState.tempSample + 1 :=
  C7_same_iteration_record
    { raw_line := "C: 21.5", sample_dt := "2024-06-01T12:00:00",
      cmdInput := "enable experiment 7", ioFault := false }
    cliState enabledState
    [Event.printLn ("[Enable] Experiment " ++ toString (7 : Int) ++ "..."),
     Event.printLn "[Disable] CLI..."]
    ⟨false, 21, 5, 1⟩ rfl (by decide) rfl (by decide) (by decide) (by decide) rfl

/-- C8: from process start, any schedule of iterations and signals
renders the static help text at most once, and whenever the run is still
alive `FIRST_CLI_RUN` is set exactly while no render has happened yet —
so the help is shown exactly on the first iteration entered in
CommandLine mode and never again. -/
theorem C8_help_once (tr : List LoopEvent) :
    helpRenderCount tr initState ≤ 1 ∧
      ∀ s1 evs, runTrace tr initState = .ok s1 evs →
        (s1.firstCliRun = true ↔ helpRenderCount tr initState = 0) :=
  helpCount_of_fresh tr initState rfl

/-- C8 witness: a SIGINT followed by two CLI iterations renders the help
exactly once. -/
theorem C8_witness :
    helpRenderCount [LoopEvent.sigint,
        LoopEvent.iter ⟨"", "TS", "", false⟩,
        LoopEvent.iter ⟨"", "TS", "", false⟩] initState ≤ 1 ∧
      ∀ s1 evs, runTrace [LoopEvent.sigint,
          LoopEvent.iter ⟨"", "TS", "", false⟩,
          LoopEvent.iter ⟨"", "TS", "", false⟩] initState = .ok s1 evs →
        (s1.firstCliRun = true ↔ helpRenderCount [LoopEvent.sigint,
            LoopEvent.iter ⟨"", "TS", "", false⟩,
            LoopEvent.iter ⟨"", "TS", "", false⟩] initState = 0) :=
  C8_help_once [LoopEvent.sigint,
    LoopEvent.iter ⟨"", "TS", "", false⟩,
    LoopEvent.iter ⟨"", "TS", "", false⟩]

/-- C10: in every state reachable by a normally-returning schedule from
process start, an active experiment flag comes with a defined experiment
number; `enable_experiment` sets the flag, the number and both zeroed
counters together, `disable_experiment` clears flag and number together,
and no step of the program moves the flag and the number apart. -/
theorem C10_exp_coupling :
    (∀ (tr : List LoopEvent) (s1 : State) (evs : List Event),
        runTrace tr initState = .ok s1 evs →
        s1.experimentActive = true → s1.experimentNumber ≠ none) ∧
    (∀ (n : Int) (s : State),
        (enable_experiment n s).1.experimentActive = true ∧
          (enable_experiment n s).1.experimentNumber = some n ∧
          (enable_experiment n s).1.tempSample = 0 ∧
          (enable_experiment n s).1.rotSample = 0) ∧
    (∀ s : State, (disable_experiment s).1.experimentActive = false ∧
        (disable_experiment s).1.experimentNumber = none) ∧
    (∀ (e : LoopEvent) (s s1 : State) (evs : List Event),
        stepLoop e s = .ok s1 evs →
        (s1.experimentActive = s.experimentActive ∧
          s1.experimentNumber = s.experimentNumber) ∨
        (∃ n, s1.experimentActive = true ∧ s1.experimentNumber = some n) ∨
        (s1.experimentActive = false ∧ s1.experimentNumber = none)) := by
  refine ⟨?_, ?_, ?_, stepLoop_exp⟩
  · intro tr s1 evs h
    exact runTrace_exp_inv tr initState (fun h2 => absurd h2 (by decide)) s1 evs h
  · intro n s
    exact ⟨rfl, rfl, rfl, rfl⟩
  · intro s
    exact ⟨rfl, rfl⟩

/-- C10 witness: the invariant instantiated at the empty schedule. -/
theorem C10_witness :
    initState.experimentActive = true → initState.experimentNumber ≠ none :=
  C10_exp_coupling.1 [] initState [] rfl
